import Mathlib

/-!
Verification of the ThingsBoard python client SDK design specification.

The repository ships its unit tests (`tests/firmware_tests.py`,
`tests/gateway_init_tests.py`) and a gateway usage example
(`examples/gateway/subscribe_to_attributes.py`); the client modules
`tb_device_mqtt.py` and `tb_gateway_mqtt.py` that those files exercise are
not part of the source tree.  The definitions below therefore embed the
client behaviour as modelled from the design specification (sections 4.1,
4.3, 4.4, 4.5, 6 and 8), with the shipped tests fixing the concrete
constants (topic names, the keep-alive value, the `"0:0,"` sentinel, the
shape of the forwarded service configuration).
-/

namespace TB

/-! ## Rate limiter (spec section 4.3) -/

/-- Modelled from the spec: one `RateLimitWindow` of the `RateLimit` component
of `tb_device_mqtt.py` (not under src/): a `(capacity, duration)` pair with a
current counter and a window-start timestamp. -/
structure RateLimitWindow where
  capacity : Nat
  duration : Nat
  counter : Nat
  start : Nat
deriving DecidableEq, Repr

/-- Modelled from the spec: the `RateLimit` component of `tb_device_mqtt.py`
(not under src/) holds an ordered set of windows; an empty window set means
"no limit" (always admit). -/
structure RateLimit where
  windows : List RateLimitWindow
deriving DecidableEq, Repr

/-- Splits a character list at every occurrence of the separator, the way
the python `str.split` used by the configuration parsing does: `"0:0,"`
splits at `,` into `["0:0", ""]`. -/
def splitChars (sep : Char) (l : List Char) : List (List Char) :=
  match l with
  | [] => [[]]
  | c :: rest =>
    let tail := splitChars sep rest
    if c = sep then [] :: tail
    else
      match tail with
      | [] => [[c]]
      | h :: t => (c :: h) :: t

/-- Value of a decimal digit character, `none` for anything else. -/
def digitVal (c : Char) : Option Nat :=
  if '0' ≤ c ∧ c ≤ '9' then some (c.toNat - '0'.toNat) else none

/-- Decimal reading of a character list, the way python's `int` reads the
capacity and duration fields; a character list that is empty or holds a
non-digit yields `none`. -/
def charsToNat (l : List Char) : Option Nat :=
  match l with
  | [] => none
  | _ =>
    l.foldl (fun acc c =>
      match acc, digitVal c with
      | some n, some d => some (n * 10 + d)
      | _, _ => none) (some 0)

/-- Modelled from the spec: parsing of one `capacity:duration` pair of a
rate-limit configuration string; anything malformed parses to `none`. -/
def parsePair (l : List Char) : Option (Nat × Nat) :=
  match splitChars ':' l with
  | [a, b] =>
    match charsToNat a, charsToNat b with
    | some c, some d => some (c, d)
    | _, _ => none
  | _ => none

/-- Modelled from the spec: parsing of a comma-delimited rate-limit
configuration string into its list of `(capacity, duration)` windows.  Empty
fragments and unparsable pairs are dropped ("parsing failure or an empty
string is treated as no limit"), and a pair with zero capacity or zero
duration expresses no constraint — this is what makes the sentinel `"0:0,"`
mean "no limit" rather than zero capacity (spec section 4.5). -/
def parseRateLimit (s : String) : List (Nat × Nat) :=
  (((splitChars ',' s.data).filter (fun frag => frag ≠ [])).filterMap parsePair).filter
    (fun p => p.1 ≠ 0 ∧ p.2 ≠ 0)

/-- Modelled from the spec: a freshly configured limiter at time `now`; every
parsed window starts with counter 0. -/
def mkRateLimit (s : String) (now : Nat) : RateLimit :=
  ⟨(parseRateLimit s).map (fun p => ⟨p.1, p.2, 0, now⟩)⟩

/-- Modelled from the spec: `set_limit` replaces a limiter's configuration at
runtime; in-flight counts are preserved positionally across reconfiguration,
and windows beyond the new specification are discarded. -/
def setLimit (rl : RateLimit) (s : String) (now : Nat) : RateLimit :=
  ⟨((parseRateLimit s).enum).map (fun p =>
    match rl.windows.get? p.1 with
    | some w => ⟨p.2.1, p.2.2, w.counter, w.start⟩
    | none => ⟨p.2.1, p.2.2, 0, now⟩)⟩

/-- Modelled from the spec: the per-window bookkeeping done before an
admission check — if the elapsed time since the window start reaches the
window duration, the window start and counter are reset. -/
def tickWindow (now : Nat) (w : RateLimitWindow) : RateLimitWindow :=
  if w.duration ≤ now - w.start then ⟨w.capacity, w.duration, 0, now⟩ else w

/-- Modelled from the spec: `try_admit(category, amount)` — after resetting
expired windows, admit only if every window's `counter + amount ≤ capacity`;
on admission increment every window's counter. -/
def tryAdmit (rl : RateLimit) (now : Nat) (amount : Nat) : Bool × RateLimit :=
  let ticked := rl.windows.map (tickWindow now)
  if ticked.all (fun w => w.counter + amount ≤ w.capacity) then
    (true, ⟨ticked.map (fun w => ⟨w.capacity, w.duration, w.counter + amount, w.start⟩)⟩)
  else
    (false, ⟨ticked⟩)

/-- Runs a sequence of unit-amount admission attempts at the given times,
returning how many were admitted together with the final limiter state. -/
def runAttempts (rl : RateLimit) (ts : List Nat) : Nat × RateLimit :=
  match ts with
  | [] => (0, rl)
  | t :: rest =>
    let step := tryAdmit rl t 1
    let tail := runAttempts step.2 rest
    ((if step.1 then 1 else 0) + tail.1, tail.2)

/-! ## JSON configuration values (spec section 6) -/

/-- A JSON value as far as the service-configuration push needs it: a string
leaf or an object of named fields. -/
inductive JVal where
  | str : String → JVal
  | obj : List (String × JVal) → JVal

/-- First value bound to a key in a JSON object's field list. -/
def jlookup (fields : List (String × JVal)) (k : String) : Option JVal :=
  match fields with
  | [] => none
  | p :: rest => if p.1 = k then some p.2 else jlookup rest k

/-- String value bound to a key, when the key is bound to a string leaf. -/
def jlookupStr (fields : List (String × JVal)) (k : String) : Option String :=
  match jlookup fields k with
  | some (JVal.str s) => some s
  | _ => none

/-! ## Gateway service-configuration handler (spec sections 4.5 and 6) -/

/-- Observable outcome of one call of the gateway's service-configuration
handler: the argument of each limiter's `set_limit` call (`none` when the
limiter was not reconfigured), the `rate_limits_received` flag, and the
configuration forwarded to the device-level handler (`none` when the parent
handler was not called). -/
structure GwServiceConfigResult where
  setMessagesLimit : Option String
  setTelemetryMessagesLimit : Option String
  setTelemetryDatapointsLimit : Option String
  rateLimitsReceived : Bool
  forwarded : Option (List (String × JVal))

/-- Configuration forwarded to the device-level handler: the
`gatewayRateLimits` entry is consumed by the gateway, the `rateLimits` entry
is renamed to `rateLimit`, and every other entry is kept unchanged. -/
def forwardConfig (response : List (String × JVal)) : List (String × JVal) :=
  (response.filter (fun p => p.1 ≠ "gatewayRateLimits")).map
    (fun p => if p.1 = "rateLimits" then ("rateLimit", p.2) else p)

/-- Modelled from the spec: `TBGatewayMqttClient.__on_service_configuration`
of `tb_gateway_mqtt.py` (not under src/).  A response carrying an `error` key
only marks the rate limits as received; otherwise the three gateway limiters
receive the `messages`, `telemetryMessages` and `telemetryDataPoints` strings
of the `gatewayRateLimits` object — a missing field defaults to the "no
limit" sentinel `"0:0,"` — and the remaining configuration, with `rateLimits`
renamed to `rateLimit`, is forwarded to the device-level handler. -/
def onServiceConfigurationGw (response : List (String × JVal)) : GwServiceConfigResult :=
  if (jlookup response "error").isSome then
    { setMessagesLimit := none
      setTelemetryMessagesLimit := none
      setTelemetryDatapointsLimit := none
      rateLimitsReceived := true
      forwarded := none }
  else
    let gwLimits := match jlookup response "gatewayRateLimits" with
      | some (JVal.obj fields) => fields
      | _ => []
    { setMessagesLimit := some ((jlookupStr gwLimits "messages").getD "0:0,")
      setTelemetryMessagesLimit := some ((jlookupStr gwLimits "telemetryMessages").getD "0:0,")
      setTelemetryDatapointsLimit := some ((jlookupStr gwLimits "telemetryDataPoints").getD "0:0,")
      rateLimitsReceived := true
      forwarded := some (forwardConfig response) }

/-! ## Device client connection handling (spec section 4.1) -/

/-- Signature category of a user-supplied connect callback: one that accepts
a `tb_client` keyword argument and one that does not
(`tests/firmware_tests.py` exercises both). -/
inductive ConnectCallbackKind where
  | withTbClient
  | withoutTbClient
deriving DecidableEq, Repr

/-- Modelled from the spec: the connection-relevant state of
`TBDeviceMqttClient` of `tb_device_mqtt.py` (not under src/). -/
structure DeviceClient where
  host : String
  port : Nat
  isConnected : Bool
  requestServiceConfigurationRequired : Bool
  qualityOfService : Nat
  connectCallback : Option ConnectCallbackKind
deriving DecidableEq, Repr

/-- Modelled from the spec: a freshly constructed device client is not
connected; its default quality of service is 1. -/
def mkDeviceClient (host : String) (port : Nat) : DeviceClient :=
  { host := host
    port := port
    isConnected := false
    requestServiceConfigurationRequired := false
    qualityOfService := 1
    connectCallback := none }

/-- Arguments of the transport's `connect` call. -/
structure TransportConnectCall where
  host : String
  port : Nat
  keepalive : Nat
deriving DecidableEq, Repr

/-- Modelled from the spec: `TBDeviceMqttClient.connect` of
`tb_device_mqtt.py` (not under src/) hands the configured host and port to
the transport's `connect`, with an optional keep-alive interval defaulting
to 120 seconds. -/
def connect (c : DeviceClient) (keepalive : Nat := 120) : TransportConnectCall × DeviceClient :=
  (⟨c.host, c.port, keepalive⟩, c)

/-- One invocation of the user-supplied connect callback: the transport
userdata, the connection flags, the reason code, and whether the client
instance was passed through the `tb_client` keyword argument. -/
structure CallbackInvocation where
  userdata : Option String
  flags : Option String
  resultCode : Nat
  tbClientPassed : Bool
deriving DecidableEq, Repr

/-- Observable outcome of one call of the connect handler: the updated
client, the transport `subscribe` calls in order, the connect-callback
invocations, and the connection error when the handshake was rejected. -/
structure OnConnectResult where
  client : DeviceClient
  subscribeCalls : List (String × Nat)
  callbackCalls : List CallbackInvocation
  connectError : Option String
deriving DecidableEq, Repr

/-- The fixed set of platform topics a device client subscribes to on every
successful (re)connect, in order. -/
def deviceSubscriptionTopics : List String :=
  ["v1/devices/me/attributes", "v1/devices/me/attributes/response/+",
   "v1/devices/me/rpc/request/+", "v1/devices/me/rpc/response/+"]

/-- Modelled from the spec: the `RESULT_CODES` table of `tb_device_mqtt.py`
(not under src/) naming the known non-zero handshake reason codes. -/
def resultCodeTable : List (Nat × String) :=
  [(1, "incorrect protocol version"), (2, "invalid client identifier"),
   (3, "server unavailable"), (4, "bad username or password"),
   (5, "not authorised")]

/-- Modelled from the spec: `TBDeviceMqttClient._on_connect` of
`tb_device_mqtt.py` (not under src/).  Reason code 0 flips the connected
flag, re-subscribes to the four platform topics, marks the service
configuration as to be re-fetched, and invokes the user-supplied connect
callback once — passing the client instance through `tb_client` exactly when
the callback's signature accepts it; a non-zero reason code leaves the
client untouched and fails with a connection error. -/
def onConnect (c : DeviceClient) (userdata flags : Option String)
    (resultCode : Nat) : OnConnectResult :=
  if resultCode = 0 then
    { client := { c with isConnected := true, requestServiceConfigurationRequired := true }
      subscribeCalls := deviceSubscriptionTopics.map (fun t => (t, c.qualityOfService))
      callbackCalls :=
        match c.connectCallback with
        | some ConnectCallbackKind.withTbClient => [⟨userdata, flags, resultCode, true⟩]
        | some ConnectCallbackKind.withoutTbClient => [⟨userdata, flags, resultCode, false⟩]
        | none => []
      connectError := none }
  else
    { client := c
      subscribeCalls := []
      callbackCalls := []
      connectError :=
        match resultCodeTable.find? (fun p => p.1 == resultCode) with
        | some p => some ("connection FAIL with error " ++ toString resultCode ++ " " ++ p.2)
        | none => some "connection FAIL with unknown error" }

/-! ## Firmware update session (spec section 4.4) -/

/-- The firmware session states of the spec's state machine. -/
inductive FwState where
  | IDLE
  | REQUESTING_INFO
  | DOWNLOADING
  | VERIFYING
  | UPDATING
  | UPDATED
  | FAILED
deriving DecidableEq, Repr

/-- A byte of the firmware buffer. -/
abbrev Byte := Fin 256

/-- Modelled from the spec: the external checksum algorithm (`SHA256` and its
kin, computed through the `hashlib` collaborator) embedded as a concrete
digest over byte strings.  The embedding keeps the one property section 8 of
the spec relies on: equal-length buffers that differ anywhere — in particular
in a single flipped byte — have distinct digests. -/
def digest (algorithm : String) (data : List Byte) : Nat :=
  data.foldl (fun acc b => acc * 257 + b.val + 1)
    (algorithm.data.foldl (fun acc c => acc * 1114112 + c.toNat + 1) 0)

/-- The declared firmware metadata received from server-pushed shared
attributes. -/
structure FirmwareInfo where
  fwTitle : String
  fwVersion : String
  fwSize : Nat
  fwChecksum : Nat
  fwChecksumAlgorithm : String
deriving DecidableEq, Repr

/-- A firmware-state telemetry update: the reported state string and its
detail (the new version string on `UPDATED`, a human-readable reason on
`FAILED`). -/
structure FwTelemetry where
  fwState : String
  detail : String
deriving DecidableEq, Repr

/-- Modelled from the spec: the per-update state of `TBDeviceMqttClient`'s
firmware session (`firmware_data` buffer, `__current_chunk`,
`__firmware_request_id`, chunk size and declared metadata). -/
structure FwSession where
  fwState : FwState
  firmwareData : List Byte
  firmwareInfo : FirmwareInfo
  currentChunk : Nat
  firmwareRequestId : Nat
  chunkSize : Nat
deriving DecidableEq, Repr

/-- Modelled from the spec: `TBDeviceMqttClient.__process_firmware` of
`tb_device_mqtt.py` (not under src/).  In state `VERIFYING` it computes the
digest of the accumulated buffer with the declared algorithm and compares it
to the declared checksum: on a match the session reaches `UPDATED` and
publishes an `"UPDATED"` firmware-state telemetry update with the new
version string; on a mismatch it reaches `FAILED` and publishes `"FAILED"`
with a human-readable reason. -/
def processFirmware (s : FwSession) : FwSession × List FwTelemetry :=
  if s.fwState = FwState.VERIFYING then
    if digest s.firmwareInfo.fwChecksumAlgorithm s.firmwareData = s.firmwareInfo.fwChecksum then
      ({ s with fwState := FwState.UPDATED }, [⟨"UPDATED", s.firmwareInfo.fwVersion⟩])
    else
      ({ s with fwState := FwState.FAILED }, [⟨"FAILED", "Checksum verification failed"⟩])
  else (s, [])

/-- One observable action of the client against the transport. -/
inductive ClientAction where
  | subscribeAction : String → ClientAction
  | telemetryAction : List (String × String) → ClientAction
  | publishAction : String → String → ClientAction
deriving DecidableEq, Repr

/-- The firmware chunk-request topic `v2/fw/request/<id>/chunk/<n>` of spec
section 6. -/
def fwRequestTopic (requestId chunk : Nat) : String :=
  "v2/fw/request/" ++ toString requestId ++ "/chunk/" ++ toString chunk

/-- The firmware chunk-response topic pattern of spec section 6. -/
def fwResponseTopic : String := "v2/fw/response/+"

/-- Modelled from the spec: the current-firmware-state telemetry message
(`current_fw_title`, `current_fw_version`, `fw_state`) the session publishes
while progressing. -/
def currentFwStateTelemetry (s : FwSession) (state : String) : List (String × String) :=
  [("current_fw_title", s.firmwareInfo.fwTitle),
   ("current_fw_version", s.firmwareInfo.fwVersion),
   ("fw_state", state)]

/-- Modelled from the spec: `TBDeviceMqttClient.get_firmware_update` of
`tb_device_mqtt.py` (not under src/): subscribe to the chunk-response topic,
publish a current-firmware-state telemetry message, and request chunk 0 of
the firmware (the request carries the expected chunk size), entering the
`DOWNLOADING` phase. -/
def getFirmwareUpdate (s : FwSession) : FwSession × List ClientAction :=
  ({ s with fwState := FwState.DOWNLOADING, currentChunk := 0 },
   [ClientAction.subscribeAction fwResponseTopic,
    ClientAction.telemetryAction (currentFwStateTelemetry s "DOWNLOADING"),
    ClientAction.publishAction (fwRequestTopic s.firmwareRequestId 0) (toString s.chunkSize)])

/-! ## Gateway attribute-subscription registry (spec section 4.5) -/

/-- Scope discriminator of a gateway attribute subscription. -/
inductive SubScope where
  | allAttributes
  | deviceAll : String → SubScope
  | deviceKey : String → String → SubScope
deriving DecidableEq, Repr

/-- One registered gateway attribute subscription: its id, its scope, and an
identifier standing for the registered callback function. -/
structure AttrSubscription where
  subId : Nat
  scope : SubScope
  callback : Nat
deriving DecidableEq, Repr

/-- Modelled from the spec: `TBGatewayMqttClient`'s registry of active
attribute subscriptions (not under src/): subscription ids are allocated
from a monotone counter and never reused while active. -/
structure GwSubRegistry where
  nextSubId : Nat
  subs : List AttrSubscription
deriving DecidableEq, Repr

/-- Modelled from the spec: `gw_subscribe_to_all_device_attributes` registers
a device-scoped subscription under a fresh id and returns that id. -/
def gwSubscribeToAllDeviceAttributes (r : GwSubRegistry) (device : String)
    (cb : Nat) : Nat × GwSubRegistry :=
  (r.nextSubId, ⟨r.nextSubId + 1, r.subs ++ [⟨r.nextSubId, SubScope.deviceAll device, cb⟩]⟩)

/-- Modelled from the spec: `gw_unsubscribe` removes the subscription bound
to the given id; an id no longer present removes nothing — a no-op, not an
error. -/
def gwUnsubscribe (r : GwSubRegistry) (subId : Nat) : GwSubRegistry :=
  ⟨r.nextSubId, r.subs.filter (fun sub => sub.subId ≠ subId)⟩

/-- Whether a subscription scope matches an attribute update for the given
device and key. -/
def scopeMatches (scope : SubScope) (device key : String) : Bool :=
  match scope with
  | SubScope.allAttributes => true
  | SubScope.deviceAll d => d == device
  | SubScope.deviceKey d k => d == device && k == key

/-- Modelled from the spec: dispatch of an incoming gateway attribute-update
message — the callbacks of every subscription whose scope matches the
message's device and key, in registration order. -/
def dispatchAttributeUpdate (r : GwSubRegistry) (device key : String) : List Nat :=
  (r.subs.filter (fun sub => scopeMatches sub.scope device key)).map
    (fun sub => sub.callback)

/-- The registry invariant: every active subscription id was allocated below
the counter. -/
abbrev WellFormedRegistry (r : GwSubRegistry) : Prop :=
  ∀ sub ∈ r.subs, sub.subId < r.nextSubId

/-! ## Helper lemmas: rate-limit parsing and admission -/

/-- The sentinel string `"0:0,"` parses to no windows at all. -/
theorem parseRateLimit_sentinel : parseRateLimit "0:0," = [] := by decide

/-- Reconfiguring any limiter with the sentinel leaves it with no windows. -/
theorem setLimit_sentinel (rl : RateLimit) (t : Nat) : setLimit rl "0:0," t = ⟨[]⟩ := by
  simp [setLimit, parseRateLimit_sentinel]

/-- A limiter with no windows admits every attempt. -/
theorem tryAdmit_noWindows (now amount : Nat) : (tryAdmit ⟨[]⟩ now amount).1 = true := by
  simp [tryAdmit]

/-! ## Helper lemmas: the forwarded service configuration -/

/-- Unfolding of `forwardConfig` on a cons cell. -/
theorem forwardConfig_cons (p : String × JVal) (rest : List (String × JVal)) :
    forwardConfig (p :: rest) =
      if p.1 = "gatewayRateLimits" then forwardConfig rest
      else (if p.1 = "rateLimits" then ("rateLimit", p.2) else p) :: forwardConfig rest := by
  by_cases h : p.1 = "gatewayRateLimits" <;>
    simp [forwardConfig, List.filter_cons, h]

/-- Keys other than the two rate-limit keys look up unchanged through
`forwardConfig`. -/
theorem forwardConfig_lookup_other (response : List (String × JVal)) (k : String)
    (h1 : k ≠ "gatewayRateLimits") (h2 : k ≠ "rateLimits") (h3 : k ≠ "rateLimit") :
    jlookup (forwardConfig response) k = jlookup response k := by
  induction response with
  | nil => rfl
  | cons p rest ih =>
    rw [forwardConfig_cons]
    by_cases hgw : p.1 = "gatewayRateLimits"
    · rw [if_pos hgw]
      have hpk : ¬p.1 = k := by rw [hgw]; exact fun h => h1 h.symm
      simp [jlookup, hpk, ih]
    · rw [if_neg hgw]
      by_cases hrl : p.1 = "rateLimits"
      · have hpk : ¬p.1 = k := by rw [hrl]; exact fun h => h2 h.symm
        have hk3 : ¬(("rateLimit", p.2) : String × JVal).1 = k := fun h => h3 h.symm
        have h2s : ¬("rateLimits" = k) := fun h => h2 h.symm
        simp [jlookup, hrl, hpk, hk3, h2s, ih]
      · simp only [if_neg hrl, jlookup]
        by_cases hpk : p.1 = k
        · simp [hpk]
        · simp [hpk, ih]

/-- The forwarded configuration holds no `gatewayRateLimits` entry. -/
theorem forwardConfig_no_gatewayRateLimits (response : List (String × JVal)) :
    jlookup (forwardConfig response) "gatewayRateLimits" = none := by
  have hne : ¬(("rateLimit" : String) = "gatewayRateLimits") := by decide
  induction response with
  | nil => rfl
  | cons p rest ih =>
    rw [forwardConfig_cons]
    by_cases hgw : p.1 = "gatewayRateLimits"
    · rw [if_pos hgw]; exact ih
    · rw [if_neg hgw]
      by_cases hrl : p.1 = "rateLimits" <;> simp [hrl, jlookup, hgw, hne, ih]

/-- The forwarded configuration holds no `rateLimits` entry either: that
entry is renamed. -/
theorem forwardConfig_no_rateLimits (response : List (String × JVal)) :
    jlookup (forwardConfig response) "rateLimits" = none := by
  have hne : ¬(("rateLimit" : String) = "rateLimits") := by decide
  induction response with
  | nil => rfl
  | cons p rest ih =>
    rw [forwardConfig_cons]
    by_cases hgw : p.1 = "gatewayRateLimits"
    · rw [if_pos hgw]; exact ih
    · rw [if_neg hgw]
      by_cases hrl : p.1 = "rateLimits" <;> simp [hrl, jlookup, hgw, hne, ih]

/-- When the original configuration has no `rateLimit` key of its own, the
forwarded `rateLimit` entry is exactly the original `rateLimits` entry. -/
theorem forwardConfig_lookup_renamed (response : List (String × JVal))
    (h : jlookup response "rateLimit" = none) :
    jlookup (forwardConfig response) "rateLimit" = jlookup response "rateLimits" := by
  induction response with
  | nil => rfl
  | cons p rest ih =>
    have hp1 : ¬p.1 = "rateLimit" := by
      intro hpk
      simp [jlookup, hpk] at h
    have hrest : jlookup rest "rateLimit" = none := by
      simpa [jlookup, hp1] using h
    rw [forwardConfig_cons]
    by_cases hgw : p.1 = "gatewayRateLimits"
    · have hrls : ¬p.1 = "rateLimits" := by rw [hgw]; decide
      simp [if_pos hgw, jlookup, hrls, ih hrest]
    · rw [if_neg hgw]
      by_cases hrl : p.1 = "rateLimits"
      · simp [hrl, jlookup]
      · simp [hrl, jlookup, hp1, ih hrest]

/-! ## Sample service-configuration pushes (from `tests/gateway_init_tests.py`) -/

/-- The `gatewayRateLimits` object with all three limits present. -/
def sampleFullGwLimits : List (String × JVal) :=
  [("messages", JVal.str "10:20"), ("telemetryMessages", JVal.str "30:40"),
   ("telemetryDataPoints", JVal.str "50:60")]

/-- A full service-configuration push. -/
def sampleFullResponse : List (String × JVal) :=
  [("gatewayRateLimits", JVal.obj sampleFullGwLimits),
   ("rateLimits", JVal.obj [("limit", JVal.str "value")]),
   ("other_config", JVal.str "other_value")]

/-- The `gatewayRateLimits` object lacking `telemetryDataPoints`. -/
def sampleDefaultGwLimits : List (String × JVal) :=
  [("messages", JVal.str "10:20"), ("telemetryMessages", JVal.str "30:40")]

/-- A service-configuration push lacking `telemetryDataPoints`. -/
def sampleDefaultResponse : List (String × JVal) :=
  [("gatewayRateLimits", JVal.obj sampleDefaultGwLimits),
   ("rateLimits", JVal.obj [("limit", JVal.str "value")]),
   ("other_config", JVal.str "other_value")]

/-- A service-configuration response carrying an error. -/
def sampleErrorResponse : List (String × JVal) := [("error", JVal.str "timeout")]

/-- C10: a service-configuration response carrying an `error` key makes the
gateway handler mark the rate limits as received, reconfigure none of the
three gateway rate limiters, and forward nothing to the device-level
handler. -/
theorem c10_error_response_only_marks_received (response : List (String × JVal))
    (herr : (jlookup response "error").isSome = true) :
    (onServiceConfigurationGw response).rateLimitsReceived = true ∧
    (onServiceConfigurationGw response).setMessagesLimit = none ∧
    (onServiceConfigurationGw response).setTelemetryMessagesLimit = none ∧
    (onServiceConfigurationGw response).setTelemetryDatapointsLimit = none ∧
    (onServiceConfigurationGw response).forwarded = none := by
  simp [onServiceConfigurationGw, herr]

/-- Witness for C10 at the error response of the test suite. -/
theorem c10_error_response_only_marks_received_witness :
    (onServiceConfigurationGw sampleErrorResponse).rateLimitsReceived = true ∧
    (onServiceConfigurationGw sampleErrorResponse).forwarded = none :=
  ⟨(c10_error_response_only_marks_received sampleErrorResponse rfl).1,
   (c10_error_response_only_marks_received sampleErrorResponse rfl).2.2.2.2⟩

/-- C5: a push holding all three gateway limits reconfigures the three
gateway limiters with exactly the pushed strings and forwards the remaining
configuration — `rateLimits` renamed to `rateLimit`, every other key
unchanged, `gatewayRateLimits` consumed — to the device-level handler. -/
theorem c5_valid_configuration_updates_limiters
    (response gwLimits : List (String × JVal)) (m tm tdp : String)
    (herr : jlookup response "error" = none)
    (hgw : jlookup response "gatewayRateLimits" = some (JVal.obj gwLimits))
    (hm : jlookupStr gwLimits "messages" = some m)
    (htm : jlookupStr gwLimits "telemetryMessages" = some tm)
    (htdp : jlookupStr gwLimits "telemetryDataPoints" = some tdp)
    (hnorl : jlookup response "rateLimit" = none) :
    (onServiceConfigurationGw response).setMessagesLimit = some m ∧
    (onServiceConfigurationGw response).setTelemetryMessagesLimit = some tm ∧
    (onServiceConfigurationGw response).setTelemetryDatapointsLimit = some tdp ∧
    (onServiceConfigurationGw response).forwarded = some (forwardConfig response) ∧
    jlookup (forwardConfig response) "rateLimit" = jlookup response "rateLimits" ∧
    jlookup (forwardConfig response) "gatewayRateLimits" = none ∧
    jlookup (forwardConfig response) "rateLimits" = none ∧
    (∀ k, k ≠ "gatewayRateLimits" → k ≠ "rateLimits" → k ≠ "rateLimit" →
      jlookup (forwardConfig response) k = jlookup response k) := by
  refine ⟨?_, ?_, ?_, ?_, forwardConfig_lookup_renamed response hnorl,
    forwardConfig_no_gatewayRateLimits response, forwardConfig_no_rateLimits response,
    fun k h1 h2 h3 => forwardConfig_lookup_other response k h1 h2 h3⟩ <;>
  simp [onServiceConfigurationGw, herr, hgw, hm, htm, htdp]

/-- Witness for C5 at the full push of the test suite. -/
theorem c5_valid_configuration_updates_limiters_witness :
    (onServiceConfigurationGw sampleFullResponse).setMessagesLimit = some "10:20" ∧
    (onServiceConfigurationGw sampleFullResponse).setTelemetryMessagesLimit = some "30:40" ∧
    (onServiceConfigurationGw sampleFullResponse).setTelemetryDatapointsLimit = some "50:60" ∧
    jlookup (forwardConfig sampleFullResponse) "rateLimit" =
      some (JVal.obj [("limit", JVal.str "value")]) := by
  have h := c5_valid_configuration_updates_limiters sampleFullResponse sampleFullGwLimits
    "10:20" "30:40" "50:60" rfl rfl rfl rfl rfl rfl
  exact ⟨h.1, h.2.1, h.2.2.1, by rw [h.2.2.2.2.1]; rfl⟩

/-- C2: a push whose `gatewayRateLimits` object lacks `telemetryDataPoints`
makes the handler reconfigure the datapoint limiter with exactly the
sentinel string `"0:0,"`, and that sentinel parses to no windows and admits
every send — "no limit", not zero capacity and not the message limit. -/
theorem c2_missing_datapoints_gets_no_limit_sentinel
    (response gwLimits : List (String × JVal))
    (herr : jlookup response "error" = none)
    (hgw : jlookup response "gatewayRateLimits" = some (JVal.obj gwLimits))
    (hmissing : jlookup gwLimits "telemetryDataPoints" = none) :
    (onServiceConfigurationGw response).setTelemetryDatapointsLimit = some "0:0," ∧
    parseRateLimit "0:0," = [] ∧
    (∀ rl t now amount, (tryAdmit (setLimit rl "0:0," t) now amount).1 = true) := by
  refine ⟨?_, parseRateLimit_sentinel, fun rl t now amount => ?_⟩
  · simp [onServiceConfigurationGw, herr, hgw, jlookupStr, hmissing]
  · rw [setLimit_sentinel]
    exact tryAdmit_noWindows now amount

/-- Witness for C2 at the datapoint-free push of the test suite. -/
theorem c2_missing_datapoints_gets_no_limit_sentinel_witness :
    (onServiceConfigurationGw sampleDefaultResponse).setTelemetryDatapointsLimit = some "0:0," ∧
    (tryAdmit (setLimit ⟨[]⟩ "0:0," 0) 5 1).1 = true := by
  have h := c2_missing_datapoints_gets_no_limit_sentinel sampleDefaultResponse
    sampleDefaultGwLimits rfl rfl rfl
  exact ⟨h.1, h.2.2 ⟨[]⟩ 0 5 1⟩

/-! ## Claim theorems: connection handling -/

/-- C3: a device client built for `"thingsboard_host"`, port 1883 hands
exactly that host, that port and `keepalive = 120` to the transport's
`connect`; a successful handshake (reason code 0) subscribes, in order, to
the four platform topics, sets the connected flag, and marks the service
configuration as to be re-fetched. -/
theorem c3_connect_and_on_connect_success :
    (connect (mkDeviceClient "thingsboard_host" 1883)).1 =
      ⟨"thingsboard_host", 1883, 120⟩ ∧
    ∀ userdata flags : Option String,
      (onConnect (mkDeviceClient "thingsboard_host" 1883) userdata flags 0).subscribeCalls =
        [("v1/devices/me/attributes", 1), ("v1/devices/me/attributes/response/+", 1),
         ("v1/devices/me/rpc/request/+", 1), ("v1/devices/me/rpc/response/+", 1)] ∧
      (onConnect (mkDeviceClient "thingsboard_host" 1883) userdata flags 0).client.isConnected = true ∧
      (onConnect (mkDeviceClient "thingsboard_host" 1883) userdata flags
          0).client.requestServiceConfigurationRequired = true := by
  exact ⟨rfl, fun userdata flags => ⟨rfl, rfl, rfl⟩⟩

/-- C4: a non-zero handshake reason code delivered to the connect handler
fails the connect attempt with a connection error and leaves the connected
flag false. -/
theorem c4_nonzero_reason_code_fails (c : DeviceClient)
    (userdata flags : Option String) (rc : Nat)
    (hrc : rc ≠ 0) (hc : c.isConnected = false) :
    (onConnect c userdata flags rc).connectError.isSome = true ∧
    (onConnect c userdata flags rc).client.isConnected = false := by
  unfold onConnect
  rw [if_neg hrc]
  refine ⟨?_, hc⟩
  cases resultCodeTable.find? (fun p => p.1 == rc) <;> rfl

/-- Witness for C4 at reason code 1 on a fresh client. -/
theorem c4_nonzero_reason_code_fails_witness :
    (onConnect (mkDeviceClient "thingsboard_host" 1883) none none 1).connectError.isSome = true ∧
    (onConnect (mkDeviceClient "thingsboard_host" 1883) none none 1).client.isConnected = false :=
  c4_nonzero_reason_code_fails (mkDeviceClient "thingsboard_host" 1883) none none 1
    (by decide) rfl

/-- C9: a successful handshake invokes a registered connect callback exactly
once with the userdata, the flags and the reason code, and passes the client
instance through `tb_client` exactly when the callback's signature accepts
that keyword argument. -/
theorem c9_connect_callback_invoked_once (c : DeviceClient)
    (kind : ConnectCallbackKind) (userdata flags : Option String)
    (h : c.connectCallback = some kind) :
    (onConnect c userdata flags 0).callbackCalls =
      [⟨userdata, flags, 0, kind = ConnectCallbackKind.withTbClient⟩] := by
  cases kind <;> simp [onConnect, h]

/-- Witness for C9: both callback signatures at a concrete client. -/
theorem c9_connect_callback_invoked_once_witness :
    (onConnect { mkDeviceClient "thingsboard_host" 1883 with
        connectCallback := some ConnectCallbackKind.withTbClient }
        (some "test_user_data") (some "test_flags") 0).callbackCalls =
      [⟨some "test_user_data", some "test_flags", 0, true⟩] ∧
    (onConnect { mkDeviceClient "thingsboard_host" 1883 with
        connectCallback := some ConnectCallbackKind.withoutTbClient }
        (some "test_user_data") (some "test_flags") 0).callbackCalls =
      [⟨some "test_user_data", some "test_flags", 0, false⟩] := by
  constructor
  · have h := c9_connect_callback_invoked_once
      { mkDeviceClient "thingsboard_host" 1883 with
        connectCallback := some ConnectCallbackKind.withTbClient }
      ConnectCallbackKind.withTbClient (some "test_user_data") (some "test_flags") rfl
    simpa using h
  · have h := c9_connect_callback_invoked_once
      { mkDeviceClient "thingsboard_host" 1883 with
        connectCallback := some ConnectCallbackKind.withoutTbClient }
      ConnectCallbackKind.withoutTbClient (some "test_user_data") (some "test_flags") rfl
    simpa using h

/-! ## Claim theorems: firmware download start -/

/-- C7: `get_firmware_update` subscribes the transport to the chunk-response
topic `v2/fw/response/+` and then publishes a request for chunk 0 of the
firmware on `v2/fw/request/<id>/chunk/0`, along with a
current-firmware-state telemetry message, entering the `DOWNLOADING`
phase. -/
theorem c7_get_firmware_update_starts_download (s : FwSession) :
    (getFirmwareUpdate s).2 =
      [ClientAction.subscribeAction "v2/fw/response/+",
       ClientAction.telemetryAction
         [("current_fw_title", s.firmwareInfo.fwTitle),
          ("current_fw_version", s.firmwareInfo.fwVersion),
          ("fw_state", "DOWNLOADING")],
       ClientAction.publishAction
         ("v2/fw/request/" ++ toString s.firmwareRequestId ++ "/chunk/" ++ toString 0)
         (toString s.chunkSize)] ∧
    (getFirmwareUpdate s).1.fwState = FwState.DOWNLOADING ∧
    (getFirmwareUpdate s).1.currentChunk = 0 :=
  ⟨rfl, rfl, rfl⟩

/-! ## Claim theorems: gateway attribute subscriptions -/

/-- C8: unsubscribing the id returned by
`gw_subscribe_to_all_device_attributes` removes exactly that entry — the
registry returns to its previous subscription list, attribute updates no
longer reach the removed callback while every other subscription fires as
before — and a second `gw_unsubscribe` of the same id is a no-op. -/
theorem filter_ne_of_bounded (subs : List AttrSubscription) (n : Nat)
    (h : ∀ sub ∈ subs, sub.subId < n) :
    subs.filter (fun sub => sub.subId ≠ n) = subs := by
  induction subs with
  | nil => rfl
  | cons a t ih =>
    have ha := h a (List.mem_cons_self a t)
    have ht : ∀ sub ∈ t, sub.subId < n := fun sub hs => h sub (List.mem_cons_of_mem a hs)
    have hne : ¬(a.subId = n) := by omega
    have hcond : (decide (a.subId ≠ n)) = true := by
      simp only [ne_eq, decide_eq_true_eq]
      exact hne
    rw [List.filter_cons, if_pos hcond, ih ht]

/-- C8: unsubscribing the id returned by
`gw_subscribe_to_all_device_attributes` removes exactly that entry — the
registry returns to its previous subscription list, attribute updates no
longer reach the removed callback while every other subscription fires as
before — and a second `gw_unsubscribe` of the same id is a no-op. -/
theorem c8_gw_unsubscribe_removes_exactly_and_idempotent (r : GwSubRegistry)
    (device : String) (cb : Nat) (hwf : WellFormedRegistry r) :
    (gwUnsubscribe (gwSubscribeToAllDeviceAttributes r device cb).2
        (gwSubscribeToAllDeviceAttributes r device cb).1).subs = r.subs ∧
    (∀ d k, dispatchAttributeUpdate
        (gwUnsubscribe (gwSubscribeToAllDeviceAttributes r device cb).2
          (gwSubscribeToAllDeviceAttributes r device cb).1) d k =
        dispatchAttributeUpdate r d k) ∧
    gwUnsubscribe (gwUnsubscribe (gwSubscribeToAllDeviceAttributes r device cb).2
        (gwSubscribeToAllDeviceAttributes r device cb).1)
        (gwSubscribeToAllDeviceAttributes r device cb).1 =
      gwUnsubscribe (gwSubscribeToAllDeviceAttributes r device cb).2
        (gwSubscribeToAllDeviceAttributes r device cb).1 ∧
    (∀ d k, cb ∉ r.subs.map AttrSubscription.callback →
      cb ∉ dispatchAttributeUpdate
        (gwUnsubscribe (gwSubscribeToAllDeviceAttributes r device cb).2
          (gwSubscribeToAllDeviceAttributes r device cb).1) d k) := by
  have hr2 : gwUnsubscribe (gwSubscribeToAllDeviceAttributes r device cb).2
      (gwSubscribeToAllDeviceAttributes r device cb).1 =
      ⟨r.nextSubId + 1, r.subs⟩ := by
    show (⟨r.nextSubId + 1,
        (r.subs ++ [(⟨r.nextSubId, SubScope.deviceAll device, cb⟩ : AttrSubscription)]).filter
          (fun sub => sub.subId ≠ r.nextSubId)⟩ : GwSubRegistry) =
      (⟨r.nextSubId + 1, r.subs⟩ : GwSubRegistry)
    rw [List.filter_append, filter_ne_of_bounded r.subs r.nextSubId hwf]
    simp [List.filter]
  rw [hr2]
  have hkeep := filter_ne_of_bounded r.subs r.nextSubId hwf
  refine ⟨rfl, ?_, ?_, ?_⟩
  · intro d k
    simp [dispatchAttributeUpdate]
  · show (⟨r.nextSubId + 1,
        r.subs.filter (fun sub => sub.subId ≠ r.nextSubId)⟩ : GwSubRegistry) =
      (⟨r.nextSubId + 1, r.subs⟩ : GwSubRegistry)
    rw [hkeep]
  · intro d k hcb hmem
    apply hcb
    simp only [dispatchAttributeUpdate, List.mem_map] at hmem
    obtain ⟨sub, hsub, hcbe⟩ := hmem
    exact List.mem_map.2 ⟨sub, (List.mem_filter.1 hsub).1, hcbe⟩

/-- Witness for C8 at a concrete registry holding two prior
subscriptions. -/
theorem c8_gw_unsubscribe_removes_exactly_and_idempotent_witness :
    (gwUnsubscribe (gwSubscribeToAllDeviceAttributes
        ⟨2, [⟨0, SubScope.allAttributes, 10⟩, ⟨1, SubScope.deviceAll "ImageTest", 11⟩]⟩
        "ImageTest" 12).2
      (gwSubscribeToAllDeviceAttributes
        ⟨2, [⟨0, SubScope.allAttributes, 10⟩, ⟨1, SubScope.deviceAll "ImageTest", 11⟩]⟩
        "ImageTest" 12).1).subs =
      [⟨0, SubScope.allAttributes, 10⟩, ⟨1, SubScope.deviceAll "ImageTest", 11⟩] :=
  (c8_gw_unsubscribe_removes_exactly_and_idempotent
    ⟨2, [⟨0, SubScope.allAttributes, 10⟩, ⟨1, SubScope.deviceAll "ImageTest", 11⟩]⟩
    "ImageTest" 12 (by decide)).1

/-! ## Claim theorems: rate limiter window exactness -/

/-- Running unit-amount attempts against a single fresh-epoch window whose
duration has not elapsed admits exactly the remaining capacity. -/
theorem runAttempts_single_window (c d t0 : Nat) (ts : List Nat) :
    ∀ k, k ≤ c → (∀ t ∈ ts, t0 ≤ t ∧ t < t0 + d) →
    runAttempts ⟨[⟨c, d, k, t0⟩]⟩ ts =
      (min (c - k) ts.length, ⟨[⟨c, d, k + min (c - k) ts.length, t0⟩]⟩) := by
  induction ts with
  | nil =>
    intro k hk _
    simp [runAttempts]
  | cons t rest ih =>
    intro k hk hts
    have htt := hts t (List.mem_cons_self t rest)
    have hrest : ∀ u ∈ rest, t0 ≤ u ∧ u < t0 + d :=
      fun u hu => hts u (List.mem_cons_of_mem t hu)
    have htick : tickWindow t ⟨c, d, k, t0⟩ = ⟨c, d, k, t0⟩ := by
      unfold tickWindow
      rw [if_neg]
      simp only
      omega
    by_cases hcap : k + 1 ≤ c
    · have hstep : tryAdmit ⟨[⟨c, d, k, t0⟩]⟩ t 1 = (true, ⟨[⟨c, d, k + 1, t0⟩]⟩) := by
        simp [tryAdmit, htick, hcap]
      simp only [runAttempts, hstep, ih (k + 1) hcap hrest, List.length_cons, if_true]
      have h1 : 1 + min (c - (k + 1)) rest.length = min (c - k) (rest.length + 1) := by
        omega
      have h2 : k + 1 + min (c - (k + 1)) rest.length = k + min (c - k) (rest.length + 1) := by
        omega
      rw [h1, h2]
    · have hstep : tryAdmit ⟨[⟨c, d, k, t0⟩]⟩ t 1 = (false, ⟨[⟨c, d, k, t0⟩]⟩) := by
        simp [tryAdmit, htick, hcap]
      simp only [runAttempts, hstep, ih k hk hrest, List.length_cons]
      have h1 : min (c - k) rest.length = min (c - k) (rest.length + 1) := by
        omega
      rw [h1]
      simp

/-- C6: a limiter configured from a valid `capacity:duration` string admits
exactly `capacity` unit sends within the window and rejects the next one,
a send is admitted only if every configured window has remaining capacity
after the expiry bookkeeping, and an admitted send increments every
configured window's counter. -/
theorem c6_rate_limiter_window_exactness (s : String) (c d t0 : Nat) (ts : List Nat)
    (hparse : parseRateLimit s = [(c, d)]) (hc : 0 < c) (hd : 0 < d)
    (hts : ∀ t ∈ ts, t0 ≤ t ∧ t < t0 + d) :
    (runAttempts (mkRateLimit s t0) ts).1 = min c ts.length ∧
    (∀ t, t0 ≤ t → t < t0 + d → c ≤ ts.length →
      (tryAdmit (runAttempts (mkRateLimit s t0) ts).2 t 1).1 = false) ∧
    (∀ rl now amount, (tryAdmit rl now amount).1 = true →
      ∀ w ∈ rl.windows.map (tickWindow now), w.counter + amount ≤ w.capacity) ∧
    (∀ rl now amount, (tryAdmit rl now amount).1 = true →
      (tryAdmit rl now amount).2.windows =
        (rl.windows.map (tickWindow now)).map
          (fun w => ⟨w.capacity, w.duration, w.counter + amount, w.start⟩)) := by
  have hmk : mkRateLimit s t0 = ⟨[⟨c, d, 0, t0⟩]⟩ := by
    simp [mkRateLimit, hparse]
  have hrun := runAttempts_single_window c d t0 ts 0 (Nat.zero_le c) hts
  rw [Nat.sub_zero] at hrun
  refine ⟨?_, ?_, ?_, ?_⟩
  · rw [hmk, hrun]
  · intro t ht1 ht2 hlen
    have hmin : min c ts.length = c := by omega
    have htick : tickWindow t ⟨c, d, c, t0⟩ = ⟨c, d, c, t0⟩ := by
      unfold tickWindow
      rw [if_neg]
      simp only
      omega
    have hnot : ¬(c + 1 ≤ c) := by omega
    rw [hmk, hrun, hmin]
    simp [tryAdmit, htick, hnot]
  · intro rl now amount h
    intro w hw
    by_cases hall :
        (rl.windows.map (tickWindow now)).all (fun w => w.counter + amount ≤ w.capacity) = true
    · have := List.all_eq_true.1 hall w hw
      simpa using this
    · exfalso
      simp only [tryAdmit] at h
      rw [if_neg] at h
      · exact Bool.false_ne_true h
      · exact fun hh => hall hh
  · intro rl now amount h
    by_cases hall :
        (rl.windows.map (tickWindow now)).all (fun w => w.counter + amount ≤ w.capacity) = true
    · simp only [tryAdmit]
      rw [if_pos hall]
    · exfalso
      simp only [tryAdmit] at h
      rw [if_neg] at h
      · exact Bool.false_ne_true h
      · exact fun hh => hall hh

/-- Witness for C6: a `3:10` limiter admits the first three of four attempts
inside the window and rejects a further one. -/
theorem c6_rate_limiter_window_exactness_witness :
    (runAttempts (mkRateLimit "3:10" 100) [100, 101, 102, 105]).1 = 3 ∧
    (tryAdmit (runAttempts (mkRateLimit "3:10" 100) [100, 101, 102, 105]).2 106 1).1 = false := by
  have h := c6_rate_limiter_window_exactness "3:10" 3 10 100 [100, 101, 102, 105]
    (by decide) (by decide) (by decide) (by decide)
  exact ⟨h.1, h.2.1 106 (by decide) (by decide) (by decide)⟩

/-! ## Claim theorems: firmware verification -/

/-- The digest fold is injective in the accumulator and the byte list, for
byte lists of equal length: every digit `b.val + 1` lies in `[1, 256]`, so
the base-257 expansion is unambiguous. -/
theorem digest_step_inj :
    ∀ (l₁ l₂ : List Byte) (a₁ a₂ : Nat), l₁.length = l₂.length →
    List.foldl (fun acc b => acc * 257 + b.val + 1) a₁ l₁ =
      List.foldl (fun acc b => acc * 257 + b.val + 1) a₂ l₂ →
    a₁ = a₂ ∧ l₁ = l₂ := by
  intro l₁
  induction l₁ with
  | nil =>
    intro l₂ a₁ a₂ hlen h
    cases l₂ with
    | nil => exact ⟨h, rfl⟩
    | cons b t => simp at hlen
  | cons b₁ t₁ ih =>
    intro l₂ a₁ a₂ hlen h
    cases l₂ with
    | nil => simp at hlen
    | cons b₂ t₂ =>
      simp only [List.length_cons] at hlen
      have hlen2 : t₁.length = t₂.length := by omega
      simp only [List.foldl_cons] at h
      obtain ⟨hacc, ht⟩ := ih t₂ (a₁ * 257 + b₁.val + 1) (a₂ * 257 + b₂.val + 1) hlen2 h
      have hb1 : b₁.val < 256 := b₁.isLt
      have hb2 : b₂.val < 256 := b₂.isLt
      have ha : a₁ = a₂ := by omega
      have hbv : b₁.val = b₂.val := by omega
      exact ⟨ha, by rw [ht, Fin.ext hbv]⟩

/-- Equal-length buffers with equal digests are equal. -/
theorem digest_inj (alg : String) (l₁ l₂ : List Byte) (hlen : l₁.length = l₂.length)
    (h : digest alg l₁ = digest alg l₂) : l₁ = l₂ :=
  (digest_step_inj l₁ l₂ _ _ hlen h).2

/-- C1: processing a firmware buffer in state `VERIFYING` reaches `UPDATED`
exactly when the digest of the buffer under the declared algorithm equals
the declared checksum, and `FAILED` exactly otherwise — in particular for a
buffer differing from a correctly checksummed one by a single flipped
byte — and either outcome publishes one firmware-state telemetry update. -/
theorem c1_process_firmware_verification (s : FwSession)
    (hv : s.fwState = FwState.VERIFYING) :
    ((processFirmware s).1.fwState = FwState.UPDATED ↔
      digest s.firmwareInfo.fwChecksumAlgorithm s.firmwareData = s.firmwareInfo.fwChecksum) ∧
    ((processFirmware s).1.fwState = FwState.FAILED ↔
      ¬digest s.firmwareInfo.fwChecksumAlgorithm s.firmwareData = s.firmwareInfo.fwChecksum) ∧
    ((processFirmware s).2 = [⟨"UPDATED", s.firmwareInfo.fwVersion⟩] ∨
      (processFirmware s).2 = [⟨"FAILED", "Checksum verification failed"⟩]) ∧
    (∀ (i : Nat) (hi : i < s.firmwareData.length) (b : Byte),
      s.firmwareInfo.fwChecksum = digest s.firmwareInfo.fwChecksumAlgorithm s.firmwareData →
      ¬b = s.firmwareData.get ⟨i, hi⟩ →
      (processFirmware { s with firmwareData := s.firmwareData.set i b }).1.fwState =
        FwState.FAILED) := by
  have hflip : ∀ (i : Nat) (hi : i < s.firmwareData.length) (b : Byte),
      s.firmwareInfo.fwChecksum = digest s.firmwareInfo.fwChecksumAlgorithm s.firmwareData →
      ¬b = s.firmwareData.get ⟨i, hi⟩ →
      (processFirmware { s with firmwareData := s.firmwareData.set i b }).1.fwState =
        FwState.FAILED := by
    intro i hi b hsum hb
    have hne : ¬digest s.firmwareInfo.fwChecksumAlgorithm (s.firmwareData.set i b) =
        s.firmwareInfo.fwChecksum := by
      rw [hsum]
      intro heq
      have hlen : (s.firmwareData.set i b).length = s.firmwareData.length :=
        List.length_set s.firmwareData i b
      have hset := digest_inj s.firmwareInfo.fwChecksumAlgorithm _ _ hlen heq
      apply hb
      have hib : i < (s.firmwareData.set i b).length := by omega
      calc b = (s.firmwareData.set i b)[i] := (List.getElem_set_self hib).symm
        _ = s.firmwareData.get ⟨i, hi⟩ := by
          rw [List.get_eq_getElem]
          exact List.getElem_of_eq hset hib
    simp [processFirmware, hv, hne]
  by_cases hdg : digest s.firmwareInfo.fwChecksumAlgorithm s.firmwareData =
      s.firmwareInfo.fwChecksum
  · have hres : processFirmware s =
        ({ s with fwState := FwState.UPDATED }, [⟨"UPDATED", s.firmwareInfo.fwVersion⟩]) := by
      simp [processFirmware, hv, hdg]
    refine ⟨?_, ?_, Or.inl ?_, hflip⟩
    · rw [hres]; simp [hdg]
    · rw [hres]; simp [hdg]
    · rw [hres]
  · have hres : processFirmware s =
        ({ s with fwState := FwState.FAILED }, [⟨"FAILED", "Checksum verification failed"⟩]) := by
      simp [processFirmware, hv, hdg]
    refine ⟨?_, ?_, Or.inr ?_, hflip⟩
    · rw [hres]; simp [hdg]
    · rw [hres]; simp [hdg]
    · rw [hres]

/-- A concrete firmware session sitting in `VERIFYING` with a checksum
declared over its buffer. -/
def sampleFwSession : FwSession :=
  { fwState := FwState.VERIFYING
    firmwareData := [7, 3, 200, 41]
    firmwareInfo :=
      { fwTitle := "dummy_firmware.bin"
        fwVersion := "2.0"
        fwSize := 4
        fwChecksum := digest "SHA256" [7, 3, 200, 41]
        fwChecksumAlgorithm := "SHA256" }
    currentChunk := 0
    firmwareRequestId := 1
    chunkSize := 1024 }

/-- Witness for C1: the sample session verifies to `UPDATED`, and flipping
its byte at index 2 drives verification to `FAILED`. -/
theorem c1_process_firmware_verification_witness :
    (processFirmware sampleFwSession).1.fwState = FwState.UPDATED ∧
    (processFirmware
      { sampleFwSession with
        firmwareData := sampleFwSession.firmwareData.set 2 201 }).1.fwState =
      FwState.FAILED := by
  have h := c1_process_firmware_verification sampleFwSession rfl
  exact ⟨h.1.mpr rfl, h.2.2.2 2 (by decide) 201 rfl (by decide)⟩

end TB
